import Mathlib

/-
  Shallow embedding of the trade_bot core (src/broker.py, src/state.py,
  src/risk.py, src/main.py) for checking the natural-language specification.

  Modelling conventions:
  - Python floats carrying money and prices are embedded as rationals.
  - Timestamps are natural numbers (seconds).
  - Venue responses are explicit inputs to each operation; a response of
    none models the API call raising an exception after retry exhaustion.
  - The CSV trade journal is modelled as the list of records an operation
    appends; logging and Telegram notification are external collaborators
    and are not modelled.
-/

namespace TradeBot

/-- Embeds `InstrumentInfo` from src/broker.py lines 29-34. -/
structure InstrumentInfo where
  ticker : String
  figi : String
  lot : Int
  min_price_increment : ℚ
deriving DecidableEq, Repr

/-- Embeds `FigiState` from src/state.py lines 6-29: the per-instrument
record of position, active order and entry bookkeeping. -/
structure FigiState where
  active_order_id : Option String := none
  client_order_uid : Option String := none
  position_lots : Int := 0
  entry_price : Option ℚ := none
  entry_time : Option Nat := none
  order_side : Option String := none
  order_placed_ts : Option Nat := none
  cooldown_until : Option Nat := none
deriving DecidableEq, Repr

/-- One record of the append-only trade journal, as written by
`Broker.journal_event` (src/broker.py line 218). -/
structure JEvent where
  event : String
  figi : String
  side : String := ""
  lots : Option Int := none
  price : Option ℚ := none
  order_id : Option String := none
  client_uid : Option String := none
  status : String := ""
  reason : String := ""
deriving DecidableEq, Repr

/-- Embeds `Broker.get_cash_rub` (src/broker.py lines 333-347): sums the
money entries of the positions response matching the configured currency;
on API failure (response `none`) it returns 0. -/
def get_cash_rub (resp : Option (List (String × ℚ))) (currency : String) : ℚ :=
  match resp with
  | none => 0
  | some money => (money.filter (fun m => m.1 == currency)).foldl (fun acc m => acc + m.2) 0

/-- Embeds `Broker._round_to_step_down` (src/broker.py lines 424-428). -/
def round_to_step_down (price step : ℚ) : ℚ :=
  if step ≤ 0 then price else (⌊price / step⌋ : ℚ) * step

/-- Embeds `Broker._normalize_price` (src/broker.py lines 430-434). -/
def normalize_price (info : Option InstrumentInfo) (price : ℚ) : ℚ :=
  match info with
  | none => price
  | some i => round_to_step_down price i.min_price_increment

/-- Helper for `containsStr`: does `needle` occur as a contiguous run of `hay`. -/
def infixOfChars (needle : List Char) : List Char → Bool
  | [] => needle.isEmpty
  | c :: rest => needle.isPrefixOf (c :: rest) || infixOfChars needle rest

/-- String containment test, used to embed Python `"BUY" in direction`. -/
def containsStr (needle hay : String) : Bool :=
  infixOfChars needle.toList hay.toList

/-- Embeds the side decoding in `Broker.poll_order_updates`
(src/broker.py line 723). -/
def sideOf (direction : String) : String :=
  if containsStr "BUY" direction then "BUY"
  else if containsStr "SELL" direction then "SELL"
  else ""

/-- Successful positions response: security balances (figi, balance in
lots) and the money entries already reduced to cash in the configured
currency (src/broker.py lines 119-126). -/
structure PositionsResp where
  securities : List (String × Int)
  cash : ℚ
deriving DecidableEq, Repr

/-- Embeds the `by_figi_lots` computation of `Broker.refresh_account_snapshot`
(src/broker.py lines 128-132): every requested figi starts at 0 and each
matching security row overwrites it, so a figi absent from the response
yields 0. -/
def lotsFor (secs : List (String × Int)) (f : String) : Int :=
  (secs.filter (fun p => p.1 == f)).foldl (fun _ p => p.2) 0

/-- Embeds the positions half of `Broker.refresh_account_snapshot`
(src/broker.py lines 114-151) for one figi: on API failure nothing
changes; on success `position_lots` is overwritten from the snapshot and
entry bookkeeping follows the observed transition. -/
def snapshotPos (fs : FigiState) (resp : Option PositionsResp) (f : String)
    (nowT : Nat) (lastPrice : Option ℚ) : FigiState :=
  match resp with
  | none => fs
  | some r =>
    let prev := fs.position_lots
    let newLots := lotsFor r.securities f
    let fs1 := { fs with position_lots := newLots }
    let fs2 :=
      if 0 < prev ∧ newLots = 0 then
        { fs1 with entry_price := none, entry_time := none }
      else fs1
    if prev = 0 ∧ 0 < newLots then
      let fs3 :=
        if fs2.entry_time.isNone then { fs2 with entry_time := some nowT } else fs2
      if fs3.entry_price.isNone then
        match lastPrice with
        | some lp => { fs3 with entry_price := some lp }
        | none => fs3
      else fs3
    else fs2

/-- Embeds the orders half of `Broker.refresh_account_snapshot`
(src/broker.py lines 153-166) for one figi: on API failure nothing
changes; on success `active_order_id` is overwritten with the first order
listed for the figi (an empty order id, like a missing one, maps to
`none` via the `or None` coercion). -/
def snapshotOrders (fs : FigiState) (resp : Option (List (String × String)))
    (f : String) : FigiState :=
  match resp with
  | none => fs
  | some orders =>
    match (orders.find? (fun o => o.1 == f)).map (fun o => o.2) with
    | some oid => { fs with active_order_id := if oid == "" then none else some oid }
    | none => { fs with active_order_id := none }

/-- Embeds `Broker.refresh_account_snapshot` (src/broker.py lines 106-166)
restricted to one figi of the requested set: positions are reconciled
first, then active orders. -/
def refreshFigi (fs : FigiState) (pos : Option PositionsResp)
    (ords : Option (List (String × String))) (f : String) (nowT : Nat)
    (lastPrice : Option ℚ) : FigiState :=
  snapshotOrders (snapshotPos fs pos f nowT lastPrice) ords f

/-- Embeds `Broker.cancel_active_order` (src/broker.py lines 529-558):
no-op without an active order; on a successful venue cancel it writes one
CANCEL record and clears the order id and idempotency key; if the cancel
call raises, state is unchanged. -/
def cancel_active_order (fs : FigiState) (f : String) (cancelOk : Bool) :
    FigiState × List JEvent :=
  match fs.active_order_id with
  | none => (fs, [])
  | some oid =>
    if cancelOk then
      ({ fs with active_order_id := none, client_order_uid := none },
       [{ event := "CANCEL", figi := f, side := "", lots := none, price := none,
          order_id := some oid, client_uid := some (fs.client_order_uid.getD ""),
          status := "CANCELLED", reason := "cancel_active_order" }])
    else (fs, [])

/-- Embeds `lot = int(info.lot) if info else 1` (src/broker.py line 572). -/
def lotOf (info : Option InstrumentInfo) : Int :=
  match info with | some i => i.lot | none => 1

/-- Embeds the cost estimate `price_f * lot * quantity_lots` of the cash
pre-check (src/broker.py line 573). -/
def est_cost (info : Option InstrumentInfo) (price : ℚ) (qty : Int) : ℚ :=
  normalize_price info price * (lotOf info : ℚ) * (qty : ℚ)

/-- Embeds `Broker.place_limit_buy` (src/broker.py lines 560-638).
Inputs standing for the environment: `info` is the cached instrument info,
`cash` the result of `get_cash_rub`, `uid` the freshly minted uuid, and
`post` the venue response to `post_order` (`none` models the call
raising). Returns the updated per-instrument state, the journal records
written, and the Python return value. -/
def place_limit_buy (fs : FigiState) (f : String) (info : Option InstrumentInfo)
    (cash : ℚ) (price : ℚ) (qty : Int) (uid : String) (post : Option String) :
    FigiState × List JEvent × Bool :=
  if fs.active_order_id.isSome then (fs, [], false)
  else if 0 < fs.position_lots then (fs, [], false)
  else
    let price_f := normalize_price info price
    if 0 < cash ∧ cash < est_cost info price qty * (101 / 100) then
      (fs,
       [{ event := "SKIP", figi := f, side := "BUY", lots := some qty,
          price := some price_f, order_id := none, client_uid := none,
          status := "NO_CASH", reason := "insufficient_cash_precheck" }],
       false)
    else
      match post with
      | some oid =>
        ({ fs with client_order_uid := some uid, active_order_id := some oid },
         [{ event := "SUBMIT", figi := f, side := "BUY", lots := some qty,
            price := some price_f, order_id := some oid, client_uid := some uid,
            status := "NEW", reason := "limit_buy" }],
         true)
      | none => (fs, [], false)

/-- Embeds `Broker.place_limit_sell_to_close` (src/broker.py lines
640-693): requires an open position; a pre-existing active order is first
cancelled best-effort, then a SELL for the full current lot count is
posted under a fresh idempotency key. -/
def place_limit_sell_to_close (fs : FigiState) (f : String)
    (info : Option InstrumentInfo) (price : ℚ) (uid : String)
    (cancelOk : Bool) (post : Option String) : FigiState × List JEvent × Bool :=
  if fs.position_lots ≤ 0 then (fs, [], false)
  else
    let c :=
      if fs.active_order_id.isSome then cancel_active_order fs f cancelOk
      else (fs, [])
    let fs1 := c.1
    let price_f := normalize_price info price
    match post with
    | some oid =>
      ({ fs1 with client_order_uid := some uid, active_order_id := some oid },
       c.2 ++
       [{ event := "SUBMIT", figi := f, side := "SELL",
          lots := some fs1.position_lots, price := some price_f,
          order_id := some oid, client_uid := some uid,
          status := "NEW", reason := "limit_sell_to_close" }],
       true)
    | none => (fs1, c.2, false)

/-- Venue order-state response, as read by `Broker.poll_order_updates`
(src/broker.py lines 710-721). -/
structure OrderStateResp where
  status : String
  lots_requested : Int
  lots_executed : Int
  direction : String
  avg_price : Option ℚ
deriving DecidableEq, Repr

/-- Embeds `Broker.poll_order_updates` (src/broker.py lines 696-807):
no-op without an active order or when the status call raises; writes a
PARTIAL_FILL record on a partial execution; on a terminal status writes
the FILL or CANCEL or REJECT record, counts a trade on a BUY fill,
adjusts entry bookkeeping, and clears the order fields. Returns the
per-instrument state, the day trade counter and the journal records. -/
def poll_order_updates (fs : FigiState) (trades : Int) (f : String)
    (resp : Option OrderStateResp) (nowT : Nat) :
    FigiState × Int × List JEvent :=
  match fs.active_order_id with
  | none => (fs, trades, [])
  | some oid =>
    match resp with
    | none => (fs, trades, [])
    | some st =>
      let cuid := fs.client_order_uid.getD ""
      let side := sideOf st.direction
      let partialEvts : List JEvent :=
        if 0 < st.lots_executed ∧ 0 < st.lots_requested ∧
            st.lots_executed < st.lots_requested then
          [{ event := "PARTIAL_FILL", figi := f, side := side,
             lots := some st.lots_executed, price := st.avg_price,
             order_id := some oid, client_uid := some cuid,
             status := st.status, reason := "partial_fill" }]
        else []
      if st.status = "EXECUTION_REPORT_STATUS_FILL" then
        let trades1 := if side = "BUY" then trades + 1 else trades
        let fs1 :=
          if side = "BUY" then
            let fsa :=
              if fs.entry_time.isNone then { fs with entry_time := some nowT } else fs
            if fsa.entry_price.isNone then
              match st.avg_price with
              | some p => { fsa with entry_price := some p }
              | none => fsa
            else fsa
          else if side = "SELL" then
            { fs with entry_price := none, entry_time := none }
          else fs
        ({ fs1 with active_order_id := none, client_order_uid := none },
         trades1,
         partialEvts ++
         [{ event := "FILL", figi := f, side := side,
            lots := some st.lots_executed, price := st.avg_price,
            order_id := some oid, client_uid := some cuid,
            status := st.status, reason := "filled" }])
      else if st.status = "EXECUTION_REPORT_STATUS_CANCELLED" then
        ({ fs with active_order_id := none, client_order_uid := none },
         trades,
         partialEvts ++
         [{ event := "CANCEL", figi := f, side := side,
            lots := some st.lots_executed, price := st.avg_price,
            order_id := some oid, client_uid := some cuid,
            status := st.status, reason := "cancelled_by_api" }])
      else if st.status = "EXECUTION_REPORT_STATUS_REJECTED" then
        ({ fs with active_order_id := none, client_order_uid := none },
         trades,
         partialEvts ++
         [{ event := "REJECT", figi := f, side := side,
            lots := some st.lots_executed, price := st.avg_price,
            order_id := some oid, client_uid := some cuid,
            status := st.status, reason := "rejected" }])
      else (fs, trades, partialEvts)

/-- Modelled from the spec: `Broker.expire_stale_orders` is invoked at
src/main.py line 135 but its definition is absent from src/broker.py, so
this embeds §4.1 expireStale of the spec: if an order has been active
longer than `ttl`, cancel it (clearing the order fields per I1, writing
one CANCEL record) and return expired; otherwise change nothing. -/
def expire_stale_orders (fs : FigiState) (f : String) (nowT : Nat)
    (ttl : Nat) : FigiState × List JEvent × Bool :=
  match fs.active_order_id, fs.order_placed_ts with
  | some oid, some t0 =>
    if ttl < nowT - t0 then
      ({ fs with active_order_id := none, client_order_uid := none,
                 order_side := none, order_placed_ts := none },
       [{ event := "CANCEL", figi := f, side := "", lots := none, price := none,
          order_id := some oid, client_uid := some (fs.client_order_uid.getD ""),
          status := "CANCELLED", reason := "ttl_expired" }],
       true)
    else (fs, [], false)
  | _, _ => (fs, [], false)

/-- System state for one instrument of the universe together with the
day-scoped counters the lifecycle operations touch: the projection of
`BotState` (src/state.py lines 32-36) onto one figi, plus the journal
records written so far. -/
structure Sys where
  f : String := "F"
  fs : FigiState := {}
  trades_today : Int := 0
  current_day : Option String := none
  journal : List JEvent := []
deriving DecidableEq, Repr

/-- One lifecycle operation on the instrument, together with the venue
responses and environment values consumed during that operation. -/
inductive OpInput where
  | placeBuy (info : Option InstrumentInfo) (cash : ℚ) (price : ℚ) (qty : Int)
      (uid : String) (post : Option String)
  | placeSell (info : Option InstrumentInfo) (price : ℚ) (uid : String)
      (cancelOk : Bool) (post : Option String)
  | cancelOp (ok : Bool)
  | poll (resp : Option OrderStateResp) (nowT : Nat)
  | refresh (today : String) (pos : Option PositionsResp)
      (ords : Option (List (String × String))) (nowT : Nat) (lastP : Option ℚ)
deriving DecidableEq, Repr

/-- Steps the system by one operation, dispatching to the broker
embeddings above. `refresh` first performs `Broker._ensure_day_rollover`
(src/broker.py lines 225-228), which resets `trades_today` via
`BotState.reset_day` when the UTC day key changed. -/
def step (s : Sys) : OpInput → Sys
  | .placeBuy info cash price qty uid post =>
    let r := place_limit_buy s.fs s.f info cash price qty uid post
    { s with fs := r.1, journal := s.journal ++ r.2.1 }
  | .placeSell info price uid cancelOk post =>
    let r := place_limit_sell_to_close s.fs s.f info price uid cancelOk post
    { s with fs := r.1, journal := s.journal ++ r.2.1 }
  | .cancelOp ok =>
    let r := cancel_active_order s.fs s.f ok
    { s with fs := r.1, journal := s.journal ++ r.2 }
  | .poll resp nowT =>
    let r := poll_order_updates s.fs s.trades_today s.f resp nowT
    { s with fs := r.1, trades_today := r.2.1, journal := s.journal ++ r.2.2 }
  | .refresh today pos ords nowT lastP =>
    let s1 :=
      if s.current_day ≠ some today then
        { s with trades_today := 0, current_day := some today }
      else s
    { s1 with fs := refreshFigi s1.fs pos ords s1.f nowT lastP }

/-- Runs a sequence of operations from a starting state. -/
def stepList (s : Sys) : List OpInput → Sys
  | [] => s
  | i :: rest => stepList (step s i) rest

/-- The spec notion of a confirmed BUY fill observed by outcome polling:
the operation polls an active order and the venue reports a FILL whose
direction decodes to BUY. -/
def isBuyFillObs (s : Sys) : OpInput → Bool
  | .poll (some st) _ =>
    s.fs.active_order_id.isSome &&
    (st.status == "EXECUTION_REPORT_STATUS_FILL") &&
    (sideOf st.direction == "BUY")
  | _ => false

/-- Number of confirmed BUY fills observed along a run. -/
def countBuyFills : Sys → List OpInput → Int
  | _, [] => 0
  | s, i :: rest => (if isBuyFillObs s i then 1 else 0) + countBuyFills (step s i) rest

/-- True when the operation does not switch the venue-clock day: any
`refresh` it contains carries the day key `d`. -/
def sameDayOp (d : String) : OpInput → Bool
  | .refresh today _ _ _ _ => today == d
  | _ => true

/-- Embeds the per-instrument section of the main loop (src/main.py lines
128-190): poll the order outcome, then run TTL expiry; when expiry
reports `expired` the loop `continue`s to the next instrument, so the
signal and execution stage — abstracted here as `rest` — is skipped for
this instrument this cycle. -/
def loop_figi_step (s : Sys) (resp : Option OrderStateResp) (nowT : Nat)
    (ttl : Nat) (rest : Sys → Sys) : Sys :=
  let s1 := step s (.poll resp nowT)
  if 0 < ttl then
    let r := expire_stale_orders s1.fs s1.f nowT ttl
    let s2 := { s1 with fs := r.1, journal := s1.journal ++ r.2.1 }
    if r.2.2 then s2 else rest s2
  else rest s1

/-- Invariant I1 of the spec data model: the external order handle and
the local idempotency key are set together. -/
def orderI1 (fs : FigiState) : Prop :=
  fs.active_order_id.isSome = fs.client_order_uid.isSome

/-- Embeds `BotState` (src/state.py lines 32-36) over the full universe,
as consumed by the risk manager. -/
structure BotStateM where
  figi : List (String × FigiState) := []
  trades_today : Int := 0
  current_day : Option String := none
deriving DecidableEq, Repr

/-- Embeds `state.figi.get(figi)`: lookup without creating. -/
def figiLookup (st : BotStateM) (f : String) : Option FigiState :=
  (st.figi.find? (fun p => p.1 == f)).map (fun p => p.2)

/-- Embeds `BotState.has_open_position` (src/state.py lines 43-45). -/
def has_open_position (st : BotStateM) (f : String) : Bool :=
  match figiLookup st f with
  | some fs => 0 < fs.position_lots
  | none => false

/-- Embeds `RiskManager._count_open_positions` (src/risk.py lines 33-35). -/
def count_open_positions (st : BotStateM) : Int :=
  ((st.figi.filter (fun p => 0 < p.2.position_lots)).length : Int)

/-- Embeds `RiskManager._count_active_orders` (src/risk.py lines 37-39). -/
def count_active_orders (st : BotStateM) : Int :=
  ((st.figi.filter (fun p => p.2.active_order_id.isSome)).length : Int)

/-- Embeds `RiskManager._count_pending_buys` (src/risk.py lines 41-53):
any active order on a figi without a position counts as a pending BUY. -/
def count_pending_buys (st : BotStateM) : Int :=
  ((st.figi.filter
      (fun p => p.2.active_order_id.isSome && !(0 < p.2.position_lots))).length : Int)

/-- Embeds the `RiskManager` mutable state (src/risk.py lines 1-16):
the immutable limits plus the day metric and the circuit-breaker flag. -/
structure RMState where
  max_day_loss_rub : ℚ
  max_trades_per_day : Int
  max_positions : Int
  max_active_orders_per_figi : Int
  max_pending_buys_total : Int
  max_active_orders_total : Int
  day_metric : ℚ := 0
  locked : Bool := false
deriving DecidableEq, Repr

/-- Embeds `RiskManager.update_day_pnl` (src/risk.py lines 18-25):
records the metric and trips the circuit breaker at or below the loss
limit; it never clears the flag. -/
def update_day_pnl (rm : RMState) (v : ℚ) : RMState :=
  let rm1 := { rm with day_metric := v }
  if v ≤ -rm.max_day_loss_rub then { rm1 with locked := true } else rm1

/-- Embeds `RiskManager.lock_day` (src/risk.py lines 27-28). -/
def lock_day (rm : RMState) : RMState := { rm with locked := true }

/-- Embeds `RiskManager.allow_new_trade` (src/risk.py lines 55-93), the
entry admission check, with its fixed check order. -/
def allow_new_trade (rm : RMState) (st : BotStateM) (f : String) : Bool :=
  if rm.locked then false
  else if rm.max_trades_per_day ≤ st.trades_today then false
  else if has_open_position st f then false
  else if (match figiLookup st f with
           | some fs => fs.active_order_id.isSome
           | none => false) && rm.max_active_orders_per_figi ≤ 1 then false
  else if rm.max_positions ≤ count_open_positions st + count_pending_buys st then false
  else if rm.max_pending_buys_total ≤ count_pending_buys st then false
  else if rm.max_active_orders_total ≤ count_active_orders st then false
  else true

/-- Embeds `BotState.reset_day` (src/state.py lines 95-98): day rollover
resets the day key and the trade counter; position and entry state are
untouched. -/
def reset_day (st : BotStateM) (day : String) : BotStateM :=
  { st with current_day := some day, trades_today := 0 }

/-- Embeds `BotState.touch_day` (src/state.py lines 100-105). -/
def touch_day (st : BotStateM) (day : String) : BotStateM :=
  if st.current_day ≠ some day then reset_day st day else st

/-- The operations of the risk manager and of the day-scoped ledger,
as one instruction set over the pair of their states. -/
inductive LedgerOp where
  | updatePnl (v : ℚ)
  | lockDay
  | resetDay (day : String)
  | touchDay (day : String)
deriving DecidableEq, Repr

/-- Steps the risk-manager state and the ledger by one operation. Day
rollover acts only on the ledger component: no code path of
src/risk.py or src/state.py writes the lock flag of the other. -/
def ledgerStep (p : RMState × BotStateM) : LedgerOp → RMState × BotStateM
  | .updatePnl v => (update_day_pnl p.1 v, p.2)
  | .lockDay => (lock_day p.1, p.2)
  | .resetDay d => (p.1, reset_day p.2 d)
  | .touchDay d => (p.1, touch_day p.2 d)

/-- Runs a sequence of risk and ledger operations. -/
def ledgerRun (p : RMState × BotStateM) : List LedgerOp → RMState × BotStateM
  | [] => p
  | i :: rest => ledgerRun (ledgerStep p i) rest

/-- A sample limit configuration used by concrete witnesses. -/
def rmDemo : RMState :=
  { max_day_loss_rub := 100, max_trades_per_day := 3, max_positions := 1,
    max_active_orders_per_figi := 1, max_pending_buys_total := 1,
    max_active_orders_total := 1 }

theorem update_day_pnl_locked_mono (rm : RMState) (v : ℚ)
    (h : rm.locked = true) : (update_day_pnl rm v).locked = true := by
  unfold update_day_pnl
  split <;> simp [h]

theorem ledgerStep_locked (p : RMState × BotStateM) (i : LedgerOp)
    (h : p.1.locked = true) : (ledgerStep p i).1.locked = true := by
  cases i with
  | updatePnl v => exact update_day_pnl_locked_mono p.1 v h
  | lockDay => rfl
  | resetDay d => exact h
  | touchDay d => exact h

theorem ledgerRun_locked (ops : List LedgerOp) (p : RMState × BotStateM)
    (h : p.1.locked = true) : (ledgerRun p ops).1.locked = true := by
  induction ops generalizing p with
  | nil => exact h
  | cons i rest ih => exact ih (ledgerStep p i) (ledgerStep_locked p i h)

/-- C8: a day-metric update at or below the loss limit trips the circuit
breaker; once the breaker holds, `allow_new_trade` denies every
instrument regardless of the ledger state; the risk-manager operations
never clear the flag. -/
theorem C8_day_lock :
    (∀ rm v, v ≤ -rm.max_day_loss_rub → (update_day_pnl rm v).locked = true) ∧
    (∀ rm st f, rm.locked = true → allow_new_trade rm st f = false) ∧
    (∀ rm v, rm.locked = true → (update_day_pnl rm v).locked = true) ∧
    (∀ rm, (lock_day rm).locked = true) := by
  refine ⟨?_, ?_, ?_, ?_⟩
  · intro rm v h
    unfold update_day_pnl
    rw [if_pos h]
  · intro rm st f h
    unfold allow_new_trade
    rw [if_pos h]
  · intro rm v h
    exact update_day_pnl_locked_mono rm v h
  · intro rm
    rfl

theorem C8_day_lock_witness :
    ((-101 : ℚ) ≤ -rmDemo.max_day_loss_rub ∧
      (update_day_pnl rmDemo (-101)).locked = true) ∧
    allow_new_trade { rmDemo with locked := true } {} "BBG000000001" = false ∧
    (update_day_pnl { rmDemo with locked := true } 50).locked = true :=
  ⟨⟨by norm_num [rmDemo], C8_day_lock.1 rmDemo (-101) (by norm_num [rmDemo])⟩,
   C8_day_lock.2.1 { rmDemo with locked := true } {} "BBG000000001" rfl,
   C8_day_lock.2.2.1 { rmDemo with locked := true } 50 rfl⟩

/-- C9: `get_cash_rub` reports 0 whenever the positions call fails, and a
reported cash of exactly 0 disables the insufficient-cash pre-check of
`place_limit_buy`: with no active order and no position the order is
posted to the venue whatever the cost estimate, with a SUBMIT record and
no SKIP. -/
theorem C9_zero_cash_no_guard :
    (∀ c, get_cash_rub none c = 0) ∧
    (∀ fs f info price qty uid oid, fs.active_order_id = none →
      fs.position_lots ≤ 0 →
      (place_limit_buy fs f info 0 price qty uid (some oid)).2.2 = true ∧
      ((place_limit_buy fs f info 0 price qty uid (some oid)).2.1.map
        (fun e => e.event)) = ["SUBMIT"] ∧
      (place_limit_buy fs f info 0 price qty uid (some oid)).1.active_order_id
        = some oid ∧
      (place_limit_buy fs f info 0 price qty uid (some oid)).1.client_order_uid
        = some uid) := by
  constructor
  · intro c; rfl
  · intro fs f info price qty uid oid hao hlots
    have hnp : ¬ (0 < fs.position_lots) := not_lt.mpr hlots
    unfold place_limit_buy
    simp [hao, hnp]

theorem C9_zero_cash_no_guard_witness :
    ((({} : FigiState).active_order_id = none ∧ ({} : FigiState).position_lots ≤ 0) ∧
      get_cash_rub none "rub" = 0) ∧
    (place_limit_buy {} "BBG000000001"
        (some { ticker := "T", figi := "BBG000000001", lot := 1,
                min_price_increment := 1 / 100 })
        (get_cash_rub none "rub") 9000 1 "uid-1" (some "ord-1")).2.2 = true ∧
    ((place_limit_buy {} "BBG000000001"
        (some { ticker := "T", figi := "BBG000000001", lot := 1,
                min_price_increment := 1 / 100 })
        (get_cash_rub none "rub") 9000 1 "uid-1" (some "ord-1")).2.1.map
      (fun e => e.event)) = ["SUBMIT"] :=
  ⟨⟨⟨rfl, by decide⟩, C9_zero_cash_no_guard.1 "rub"⟩,
   ((C9_zero_cash_no_guard.2 {} "BBG000000001"
      (some { ticker := "T", figi := "BBG000000001", lot := 1,
              min_price_increment := 1 / 100 })
      9000 1 "uid-1" "ord-1" rfl (by decide)).1),
   ((C9_zero_cash_no_guard.2 {} "BBG000000001"
      (some { ticker := "T", figi := "BBG000000001", lot := 1,
              min_price_increment := 1 / 100 })
      9000 1 "uid-1" "ord-1" rfl (by decide)).2.1)⟩

/-- C10: the circuit-breaker flag is monotone across every sequence of
risk-manager and ledger operations; day rollover resets only the day key
and the trade counter, leaves the per-instrument states alone, and never
touches the risk-manager state. -/
theorem C10_lock_monotone :
    (∀ p ops, p.1.locked = true → (ledgerRun p ops).1.locked = true) ∧
    (∀ st d, (reset_day st d).trades_today = 0 ∧ (reset_day st d).figi = st.figi) ∧
    (∀ p d, (ledgerStep p (.resetDay d)).1 = p.1 ∧
      (ledgerStep p (.touchDay d)).1 = p.1) := by
  refine ⟨?_, ?_, ?_⟩
  · intro p ops h
    exact ledgerRun_locked ops p h
  · intro st d
    exact ⟨rfl, rfl⟩
  · intro p d
    exact ⟨rfl, rfl⟩

theorem lotsFor_of_absent (secs : List (String × Int)) (f : String)
    (h : ∀ s ∈ secs, s.1 ≠ f) : lotsFor secs f = 0 := by
  unfold lotsFor
  have hnil : secs.filter (fun p => p.1 == f) = [] := by
    rw [List.filter_eq_nil_iff]
    intro a ha
    simp [h a ha]
  rw [hnil]
  rfl

theorem snapshotPos_clears (fs : FigiState) (r : PositionsResp) (f : String)
    (nowT : Nat) (lp : Option ℚ) (hpos : 0 < fs.position_lots)
    (hl : lotsFor r.securities f = 0) :
    snapshotPos fs (some r) f nowT lp =
      { fs with position_lots := 0, entry_price := none, entry_time := none } := by
  unfold snapshotPos
  simp [hl, hpos, hpos.ne']

/-- First snapshot of the C1 run: the venue reports 5 lots and an active
order for the instrument. -/
def c1ops1 : List OpInput :=
  [.refresh "2026-10-10" (some { securities := [("F", 5)], cash := 1000 })
    (some [("F", "ord-c1")]) 100 (some 100)]

/-- Second snapshot of the C1 run: both queries succeed but their
snapshots omit the instrument. -/
def c1ops2 : List OpInput :=
  c1ops1 ++
    [.refresh "2026-10-10" (some { securities := [], cash := 1000 })
      (some []) 160 (some 100)]

/-- C1 as stated is false on the code: after a snapshot records 5 lots
and an active order, a later refresh whose successful position and order
queries omit the instrument zeroes `position_lots` (the `by_figi_lots`
dictionary defaults every requested figi to 0) and clears
`active_order_id`, rather than leaving the local state unchanged. -/
theorem C1_counterexample :
    (stepList {} c1ops1).fs.position_lots = 5 ∧
    (stepList {} c1ops1).fs.active_order_id = some "ord-c1" ∧
    (stepList {} c1ops2).fs.position_lots = 0 ∧
    (stepList {} c1ops2).fs.active_order_id = none := by
  decide

/-- C1 amended: local state survives a refresh only when the venue query
fails; a failed positions call leaves the whole per-instrument record
unchanged by that half, and a failed orders call leaves the order handle
unchanged. When a query succeeds while omitting the instrument, the
refresh zeroes `position_lots` (clearing entry bookkeeping) and clears
`active_order_id`. -/
theorem C1_snapshot_on_failure_only :
    (∀ fs f nowT lp, snapshotPos fs none f nowT lp = fs) ∧
    (∀ fs f, snapshotOrders fs none f = fs) ∧
    (∀ fs r f nowT lp, 0 < fs.position_lots →
      (∀ s ∈ r.securities, s.1 ≠ f) →
      snapshotPos fs (some r) f nowT lp =
        { fs with position_lots := 0, entry_price := none, entry_time := none }) ∧
    (∀ fs ords f, (∀ o ∈ ords, o.1 ≠ f) →
      (snapshotOrders fs (some ords) f).active_order_id = none) := by
  refine ⟨?_, ?_, ?_, ?_⟩
  · intro fs f nowT lp; rfl
  · intro fs f; rfl
  · intro fs r f nowT lp hpos habs
    exact snapshotPos_clears fs r f nowT lp hpos (lotsFor_of_absent _ f habs)
  · intro fs ords f habs
    unfold snapshotOrders
    have hfind : (ords.find? (fun o => o.1 == f)) = none := by
      rw [List.find?_eq_none]
      intro a ha
      simp [habs a ha]
    simp [hfind]

theorem C1_snapshot_on_failure_only_witness :
    snapshotPos
      { position_lots := 5, active_order_id := some "ord-c1",
        client_order_uid := some "uid-c1", entry_price := some 10,
        entry_time := some 1 }
      none "BBG000000001" 100 none =
      { position_lots := 5, active_order_id := some "ord-c1",
        client_order_uid := some "uid-c1", entry_price := some 10,
        entry_time := some 1 } ∧
    snapshotPos
      { position_lots := 5, active_order_id := some "ord-c1",
        client_order_uid := some "uid-c1", entry_price := some 10,
        entry_time := some 1 }
      (some { securities := [("BBG000000002", 3)], cash := 0 })
      "BBG000000001" 100 none =
      { position_lots := 0, active_order_id := some "ord-c1",
        client_order_uid := some "uid-c1", entry_price := none,
        entry_time := none } ∧
    (snapshotOrders
      { position_lots := 5, active_order_id := some "ord-c1",
        client_order_uid := some "uid-c1", entry_price := some 10,
        entry_time := some 1 }
      (some [("BBG000000002", "ord-z")]) "BBG000000001").active_order_id = none :=
  ⟨C1_snapshot_on_failure_only.1 _ "BBG000000001" 100 none,
   C1_snapshot_on_failure_only.2.2.1 _ _ "BBG000000001" 100 none (by decide)
     (by decide),
   C1_snapshot_on_failure_only.2.2.2 _ _ "BBG000000001" (by decide)⟩

/-- A sample continuation standing for the signal-and-execution stage of
the main loop, used to witness that an expired instrument skips it. -/
def restDemo (s : Sys) : Sys :=
  { s with journal := s.journal ++ [{ event := "SIGNAL", figi := s.f }] }

/-- C2 (operation modelled from the spec, its definition being absent
from src/broker.py): an order active longer than `ttl` is cancelled with
exactly one CANCEL record, the order fields are cleared and expired is
returned, upon which the per-instrument section of the main loop skips
the signal stage — its result does not involve `rest`; a younger order or
no order changes nothing. -/
theorem C2_expire_stale :
    (∀ fs f nowT ttl oid t0, fs.active_order_id = some oid →
      fs.order_placed_ts = some t0 → ttl < nowT - t0 →
      (expire_stale_orders fs f nowT ttl).2.2 = true ∧
      (expire_stale_orders fs f nowT ttl).1.active_order_id = none ∧
      (expire_stale_orders fs f nowT ttl).1.client_order_uid = none ∧
      ((expire_stale_orders fs f nowT ttl).2.1.map (fun e => e.event))
        = ["CANCEL"]) ∧
    (∀ fs f nowT ttl, fs.active_order_id = none →
      expire_stale_orders fs f nowT ttl = (fs, [], false)) ∧
    (∀ fs f nowT ttl t0, fs.order_placed_ts = some t0 → nowT - t0 ≤ ttl →
      expire_stale_orders fs f nowT ttl = (fs, [], false)) ∧
    (∀ s resp nowT ttl rest, 0 < ttl →
      (expire_stale_orders (step s (.poll resp nowT)).fs
        (step s (.poll resp nowT)).f nowT ttl).2.2 = true →
      loop_figi_step s resp nowT ttl rest =
        { step s (.poll resp nowT) with
            fs := (expire_stale_orders (step s (.poll resp nowT)).fs
              (step s (.poll resp nowT)).f nowT ttl).1,
            journal := (step s (.poll resp nowT)).journal ++
              (expire_stale_orders (step s (.poll resp nowT)).fs
                (step s (.poll resp nowT)).f nowT ttl).2.1 }) := by
  refine ⟨?_, ?_, ?_, ?_⟩
  · intro fs f nowT ttl oid t0 hao hts hlt
    unfold expire_stale_orders
    rw [hao, hts]
    simp [hlt]
  · intro fs f nowT ttl hao
    unfold expire_stale_orders
    rw [hao]
  · intro fs f nowT ttl t0 hts hle
    unfold expire_stale_orders
    rw [hts]
    cases hao : fs.active_order_id with
    | none => rfl
    | some oid => simp [not_lt.mpr hle]
  · intro s resp nowT ttl rest h hexp
    unfold loop_figi_step
    rw [if_pos h, if_pos hexp]

theorem C2_expire_stale_witness :
    (({ active_order_id := some "ord-d", client_order_uid := some "uid-d",
        order_placed_ts := some 0 : FigiState }).active_order_id
      = some "ord-d" ∧ (300 : Nat) < 301 - 0) ∧
    (expire_stale_orders
      { active_order_id := some "ord-d", client_order_uid := some "uid-d",
        order_placed_ts := some 0 } "BBG000000001" 301 300).2.2 = true ∧
    ((expire_stale_orders
      { active_order_id := some "ord-d", client_order_uid := some "uid-d",
        order_placed_ts := some 0 } "BBG000000001" 301 300).2.1.map
      (fun e => e.event)) = ["CANCEL"] ∧
    loop_figi_step
      { fs := { active_order_id := some "ord-d",
                client_order_uid := some "uid-d",
                order_placed_ts := some 0 } }
      none 301 300 restDemo =
      { step { fs := { active_order_id := some "ord-d",
                       client_order_uid := some "uid-d",
                       order_placed_ts := some 0 } }
          (.poll none 301) with
          fs := (expire_stale_orders
            (step { fs := { active_order_id := some "ord-d",
                            client_order_uid := some "uid-d",
                            order_placed_ts := some 0 } }
              (.poll none 301)).fs
            (step { fs := { active_order_id := some "ord-d",
                            client_order_uid := some "uid-d",
                            order_placed_ts := some 0 } }
              (.poll none 301)).f 301 300).1,
          journal := (step { fs := { active_order_id := some "ord-d",
                                     client_order_uid := some "uid-d",
                                     order_placed_ts := some 0 } }
            (.poll none 301)).journal ++
            (expire_stale_orders
              (step { fs := { active_order_id := some "ord-d",
                              client_order_uid := some "uid-d",
                              order_placed_ts := some 0 } }
                (.poll none 301)).fs
              (step { fs := { active_order_id := some "ord-d",
                              client_order_uid := some "uid-d",
                              order_placed_ts := some 0 } }
                (.poll none 301)).f 301 300).2.1 } :=
  ⟨⟨rfl, by decide⟩,
   (C2_expire_stale.1 _ "BBG000000001" 301 300 "ord-d" 0 rfl rfl (by decide)).1,
   (C2_expire_stale.1 _ "BBG000000001" 301 300 "ord-d" 0 rfl rfl (by decide)).2.2.2,
   C2_expire_stale.2.2.2 _ none 301 300 restDemo (by decide) (by decide)⟩

theorem cancel_preserves_orderI1 (fs : FigiState) (f : String) (ok : Bool)
    (h : orderI1 fs) : orderI1 (cancel_active_order fs f ok).1 := by
  unfold cancel_active_order
  cases hao : fs.active_order_id with
  | none => exact h
  | some oid =>
    cases ok with
    | false => exact h
    | true => rfl

/-- C3 as stated is false on the code: the orders half of the account
snapshot overwrites `active_order_id` from the venue order list without
touching `client_order_uid`, so one refresh from the initial state
against an order list mentioning the instrument leaves the order handle
set and the idempotency key unset. -/
theorem C3_counterexample :
    ((stepList {}
      [.refresh "2026-10-10" (some { securities := [], cash := 0 })
        (some [("F", "ord-x")]) 100 none]).fs.active_order_id.isSome = true) ∧
    ((stepList {}
      [.refresh "2026-10-10" (some { securities := [], cash := 0 })
        (some [("F", "ord-x")]) 100 none]).fs.client_order_uid.isSome = false) := by
  decide

/-- C3 amended: invariant I1 is preserved by order submission (both BUY
and SELL), cancellation and outcome polling, but not by account-snapshot
reconciliation, which can set `active_order_id` with `client_order_uid`
unset and vice versa. -/
theorem C3_orderI1_per_operation :
    (∀ fs f info cash price qty uid post, orderI1 fs →
      orderI1 (place_limit_buy fs f info cash price qty uid post).1) ∧
    (∀ fs f info price uid ok post, orderI1 fs →
      orderI1 (place_limit_sell_to_close fs f info price uid ok post).1) ∧
    (∀ fs f ok, orderI1 fs → orderI1 (cancel_active_order fs f ok).1) ∧
    (∀ fs trades f resp nowT, orderI1 fs →
      orderI1 (poll_order_updates fs trades f resp nowT).1) := by
  refine ⟨?_, ?_, ?_, ?_⟩
  · intro fs f info cash price qty uid post h
    unfold place_limit_buy
    split
    · exact h
    split
    · exact h
    split
    · exact h
    · cases post with
      | none => exact h
      | some oid => rfl
  · intro fs f info price uid ok post h
    unfold place_limit_sell_to_close
    split
    · exact h
    · cases post with
      | some oid => rfl
      | none =>
        by_cases hao : fs.active_order_id.isSome
        · simpa [hao] using cancel_preserves_orderI1 fs f ok h
        · simpa [hao] using h
  · intro fs f ok h
    exact cancel_preserves_orderI1 fs f ok h
  · intro fs trades f resp nowT h
    unfold poll_order_updates
    cases hao : fs.active_order_id with
    | none => exact h
    | some oid =>
      cases resp with
      | none => exact h
      | some st =>
        by_cases h1 : st.status = "EXECUTION_REPORT_STATUS_FILL"
        · simp [h1, orderI1]
        · by_cases h2 : st.status = "EXECUTION_REPORT_STATUS_CANCELLED"
          · simp [h1, h2, orderI1]
          · by_cases h3 : st.status = "EXECUTION_REPORT_STATUS_REJECTED"
            · simp [h1, h2, h3, orderI1]
            · simp only [h1, h2, h3, if_false]
              exact h

theorem C3_orderI1_per_operation_witness :
    (orderI1 ({} : FigiState) ∧
      orderI1 (place_limit_buy {} "BBG000000001" none 0 100 1 "uid-w3"
        (some "ord-w3")).1) ∧
    orderI1 (poll_order_updates
      { active_order_id := some "ord-w3", client_order_uid := some "uid-w3" }
      0 "BBG000000001"
      (some { status := "EXECUTION_REPORT_STATUS_CANCELLED", lots_requested := 1,
              lots_executed := 0, direction := "ORDER_DIRECTION_BUY",
              avg_price := none }) 50).1 :=
  ⟨⟨rfl, C3_orderI1_per_operation.1 {} "BBG000000001" none 0 100 1 "uid-w3"
      (some "ord-w3") rfl⟩,
   C3_orderI1_per_operation.2.2.2
     { active_order_id := some "ord-w3", client_order_uid := some "uid-w3" }
     0 "BBG000000001"
     (some { status := "EXECUTION_REPORT_STATUS_CANCELLED", lots_requested := 1,
             lots_executed := 0, direction := "ORDER_DIRECTION_BUY",
             avg_price := none }) 50 rfl⟩

theorem poll_position_lots (fs : FigiState) (trades : Int) (f : String)
    (resp : Option OrderStateResp) (nowT : Nat) :
    (poll_order_updates fs trades f resp nowT).1.position_lots
      = fs.position_lots := by
  unfold poll_order_updates
  repeat' split
  all_goals dsimp only
  all_goals repeat' split
  all_goals rfl

/-- The run used to refute C4: a snapshot opens a 10-lot position with
entry bookkeeping, an exit SELL is submitted, and polling reports it
FILLED — which clears the entry bookkeeping while `position_lots` is
still 10 until the next snapshot. -/
def c4ops : List OpInput :=
  [.refresh "2026-10-10" (some { securities := [("F", 10)], cash := 1000 })
    (some []) 100 (some 100),
   .placeSell none 101 "uid-c4" true (some "ord-c4"),
   .poll (some { status := "EXECUTION_REPORT_STATUS_FILL", lots_requested := 10,
                 lots_executed := 10, direction := "ORDER_DIRECTION_SELL",
                 avg_price := some 101 }) 200]

/-- C4 as stated is false on the code: after the run `c4ops` the
reachable state has `position_lots = 10` yet no entry bookkeeping — a
polled SELL fill clears `entry_price`/`entry_time` without changing
`position_lots`, so the claimed iff and the never-cleared-while-positive
part both fail. -/
theorem C4_counterexample :
    (stepList {} c4ops).fs.position_lots = 10 ∧
    (stepList {} c4ops).fs.entry_price = none ∧
    (stepList {} c4ops).fs.entry_time = none := by
  decide

/-- C4 amended: a snapshot update that takes `position_lots` from
positive to 0 clears entry bookkeeping in that same update; but the iff
does not hold over all operations, because outcome polling never touches
`position_lots` while it sets entry bookkeeping on a BUY fill and clears
it on a SELL fill. -/
theorem C4_entry_bookkeeping :
    (∀ fs r f nowT lp, 0 < fs.position_lots →
      lotsFor r.securities f = 0 →
      snapshotPos fs (some r) f nowT lp =
        { fs with position_lots := 0, entry_price := none, entry_time := none }) ∧
    (∀ fs trades f resp nowT,
      (poll_order_updates fs trades f resp nowT).1.position_lots
        = fs.position_lots) ∧
    (∀ fs trades f st nowT oid, fs.active_order_id = some oid →
      st.status = "EXECUTION_REPORT_STATUS_FILL" →
      sideOf st.direction = "SELL" →
      (poll_order_updates fs trades f (some st) nowT).1.entry_price = none ∧
      (poll_order_updates fs trades f (some st) nowT).1.entry_time = none) := by
  refine ⟨?_, ?_, ?_⟩
  · intro fs r f nowT lp hpos hl
    exact snapshotPos_clears fs r f nowT lp hpos hl
  · intro fs trades f resp nowT
    exact poll_position_lots fs trades f resp nowT
  · intro fs trades f st nowT oid hao hstat hside
    unfold poll_order_updates
    simp [hao, hstat, hside]

theorem C4_entry_bookkeeping_witness :
    ((0 : Int) < 7 ∧
      snapshotPos
        { position_lots := 7, entry_price := some 10, entry_time := some 1 }
        (some { securities := [], cash := 0 }) "BBG000000001" 100 none =
        { position_lots := 0, entry_price := none, entry_time := none }) ∧
    (poll_order_updates
      { position_lots := 7, active_order_id := some "ord-w4",
        client_order_uid := some "uid-w4", entry_price := some 10,
        entry_time := some 1 }
      0 "BBG000000001"
      (some { status := "EXECUTION_REPORT_STATUS_FILL", lots_requested := 7,
              lots_executed := 7, direction := "ORDER_DIRECTION_SELL",
              avg_price := some 11 }) 50).1.entry_price = none :=
  ⟨⟨by decide,
    C4_entry_bookkeeping.1
      { position_lots := 7, entry_price := some 10, entry_time := some 1 }
      { securities := [], cash := 0 } "BBG000000001" 100 none (by decide) rfl⟩,
   (C4_entry_bookkeeping.2.2
     { position_lots := 7, active_order_id := some "ord-w4",
       client_order_uid := some "uid-w4", entry_price := some 10,
       entry_time := some 1 }
     0 "BBG000000001"
     { status := "EXECUTION_REPORT_STATUS_FILL", lots_requested := 7,
       lots_executed := 7, direction := "ORDER_DIRECTION_SELL",
       avg_price := some 11 } 50 "ord-w4" rfl rfl (by decide)).1⟩

/-- Venue order state for a fully executed 10-lot order, as in the
Scenario C poll. -/
def buyFillResp (dir : String) (p : ℚ) : OrderStateResp :=
  { status := "EXECUTION_REPORT_STATUS_FILL", lots_requested := 10,
    lots_executed := 10, direction := dir, avg_price := some p }

/-- C5 as stated is false on the code: polling an active BUY order that
the venue reports FILLED with 10 lots executed leaves `position_lots`
at its prior value (here 0) inside that poll operation — the position
count only changes at the next account snapshot. -/
theorem C5_counterexample :
    (poll_order_updates
      { active_order_id := some "ord-c5", client_order_uid := some "uid-c5" }
      0 "BBG000000001" (some (buyFillResp "ORDER_DIRECTION_BUY" 100))
      50).1.position_lots = 0 ∧
    ¬ ((poll_order_updates
      { active_order_id := some "ord-c5", client_order_uid := some "uid-c5" }
      0 "BBG000000001" (some (buyFillResp "ORDER_DIRECTION_BUY" 100))
      50).1.position_lots = 10) := by
  decide

/-- C5 amended: polling an active BUY order reported FILLED with 10 lots
executed sets `entry_price` from the average fill price, sets
`entry_time`, increments `trades_today` by exactly 1, clears both order
fields, and writes exactly one FILL record — while `position_lots` is
left unchanged within the poll (it becomes 10 only at the next account
snapshot). -/
theorem C5_buy_fill_poll (fs : FigiState) (trades : Int) (f oid dir : String)
    (p : ℚ) (nowT : Nat) (hao : fs.active_order_id = some oid)
    (hep : fs.entry_price = none) (het : fs.entry_time = none)
    (hb : sideOf dir = "BUY") :
    (poll_order_updates fs trades f (some (buyFillResp dir p)) nowT).1.position_lots
      = fs.position_lots ∧
    (poll_order_updates fs trades f (some (buyFillResp dir p)) nowT).1.entry_price
      = some p ∧
    (poll_order_updates fs trades f (some (buyFillResp dir p)) nowT).1.entry_time
      = some nowT ∧
    (poll_order_updates fs trades f (some (buyFillResp dir p)) nowT).2.1
      = trades + 1 ∧
    (poll_order_updates fs trades f (some (buyFillResp dir p)) nowT).1.active_order_id
      = none ∧
    (poll_order_updates fs trades f (some (buyFillResp dir p)) nowT).1.client_order_uid
      = none ∧
    ((poll_order_updates fs trades f (some (buyFillResp dir p)) nowT).2.2.map
      (fun e => e.event)) = ["FILL"] := by
  unfold poll_order_updates buyFillResp
  simp [hao, hep, het, hb]

theorem C5_buy_fill_poll_witness :
    (({ active_order_id := some "ord-c5", client_order_uid := some "uid-c5"
        : FigiState }).active_order_id = some "ord-c5" ∧
      sideOf "ORDER_DIRECTION_BUY" = "BUY") ∧
    (poll_order_updates
      { active_order_id := some "ord-c5", client_order_uid := some "uid-c5" }
      0 "BBG000000001" (some (buyFillResp "ORDER_DIRECTION_BUY" 100))
      50).1.entry_price = some 100 ∧
    (poll_order_updates
      { active_order_id := some "ord-c5", client_order_uid := some "uid-c5" }
      0 "BBG000000001" (some (buyFillResp "ORDER_DIRECTION_BUY" 100))
      50).2.1 = 0 + 1 ∧
    ((poll_order_updates
      { active_order_id := some "ord-c5", client_order_uid := some "uid-c5" }
      0 "BBG000000001" (some (buyFillResp "ORDER_DIRECTION_BUY" 100))
      50).2.2.map (fun e => e.event)) = ["FILL"] :=
  ⟨⟨rfl, by decide⟩,
   (C5_buy_fill_poll
     { active_order_id := some "ord-c5", client_order_uid := some "uid-c5" }
     0 "BBG000000001" "ord-c5" "ORDER_DIRECTION_BUY" 100 50 rfl rfl rfl
     (by decide)).2.1,
   (C5_buy_fill_poll
     { active_order_id := some "ord-c5", client_order_uid := some "uid-c5" }
     0 "BBG000000001" "ord-c5" "ORDER_DIRECTION_BUY" 100 50 rfl rfl rfl
     (by decide)).2.2.2.1,
   (C5_buy_fill_poll
     { active_order_id := some "ord-c5", client_order_uid := some "uid-c5" }
     0 "BBG000000001" "ord-c5" "ORDER_DIRECTION_BUY" 100 50 rfl rfl rfl
     (by decide)).2.2.2.2.2.2⟩

theorem poll_trades_eq (fs : FigiState) (trades : Int) (f : String)
    (resp : Option OrderStateResp) (nowT : Nat) :
    (poll_order_updates fs trades f resp nowT).2.1 =
      trades + (if (match resp with
          | some st => fs.active_order_id.isSome &&
              (st.status == "EXECUTION_REPORT_STATUS_FILL") &&
              (sideOf st.direction == "BUY")
          | none => false) = true then 1 else 0) := by
  unfold poll_order_updates
  cases hao : fs.active_order_id with
  | none => cases resp <;> simp [hao]
  | some oid =>
    cases resp with
    | none => simp
    | some st =>
      by_cases hf : st.status = "EXECUTION_REPORT_STATUS_FILL"
      · by_cases hb : sideOf st.direction = "BUY"
        · simp [hf, hb]
        · simp [hf, hb]
      · by_cases hc : st.status = "EXECUTION_REPORT_STATUS_CANCELLED" <;>
          by_cases hr : st.status = "EXECUTION_REPORT_STATUS_REJECTED" <;>
            simp [hf, hc, hr]

theorem step_current_day (s : Sys) (i : OpInput) (d : String)
    (hs : s.current_day = some d) (hi : sameDayOp d i = true) :
    (step s i).current_day = some d := by
  cases i with
  | placeBuy info cash price qty uid post => exact hs
  | placeSell info price uid ok post => exact hs
  | cancelOp ok => exact hs
  | poll resp nowT => exact hs
  | refresh today pos ords nowT lastP =>
    have ht : today = d := by simpa [sameDayOp] using hi
    subst ht
    simp [step, hs]

theorem step_trades_eq (s : Sys) (i : OpInput) (d : String)
    (hs : s.current_day = some d) (hi : sameDayOp d i = true) :
    (step s i).trades_today =
      s.trades_today + (if isBuyFillObs s i then 1 else 0) := by
  cases i with
  | placeBuy info cash price qty uid post => simp [step, isBuyFillObs]
  | placeSell info price uid ok post => simp [step, isBuyFillObs]
  | cancelOp ok => simp [step, isBuyFillObs]
  | poll resp nowT =>
    cases resp with
    | none => simp [step, isBuyFillObs, poll_trades_eq]
    | some st =>
      have h := poll_trades_eq s.fs s.trades_today s.f (some st) nowT
      simpa [step, isBuyFillObs] using h
  | refresh today pos ords nowT lastP =>
    have ht : today = d := by simpa [sameDayOp] using hi
    subst ht
    simp [step, hs, isBuyFillObs]

/-- C6: along every same-day run of lifecycle operations, `trades_today`
grows by exactly the number of confirmed BUY fills observed by outcome
polling; submissions, SELL fills, rejections and cancellations — which
`countBuyFills` does not count — leave it unchanged. -/
theorem C6_trade_counting (d : String) (s : Sys) (ops : List OpInput)
    (hd : s.current_day = some d) (hops : ops.all (sameDayOp d) = true) :
    (stepList s ops).trades_today = s.trades_today + countBuyFills s ops := by
  induction ops generalizing s with
  | nil => simp [stepList, countBuyFills]
  | cons i rest ih =>
    rw [List.all_cons, Bool.and_eq_true] at hops
    have hd2 := step_current_day s i d hd hops.1
    have hrest := ih (step s i) hd2 hops.2
    rw [stepList, countBuyFills, hrest, step_trades_eq s i d hd hops.1]
    ring

/-- A same-day run for the C6 witness: submit a BUY, poll it FILLED,
then refresh the snapshot; exactly one BUY fill is observed. -/
def c6ops : List OpInput :=
  [.placeBuy none 0 100 1 "uid-c6" (some "ord-c6"),
   .poll (some (buyFillResp "ORDER_DIRECTION_BUY" 100)) 50,
   .refresh "2026-10-10" (some { securities := [("F", 10)], cash := 0 })
     (some []) 60 none,
   .cancelOp true]

theorem C6_trade_counting_witness :
    (({ current_day := some "2026-10-10" : Sys }).current_day
        = some "2026-10-10" ∧
      c6ops.all (sameDayOp "2026-10-10") = true) ∧
    (stepList { current_day := some "2026-10-10" } c6ops).trades_today =
      ({ current_day := some "2026-10-10" : Sys }).trades_today +
        countBuyFills { current_day := some "2026-10-10" } c6ops :=
  ⟨⟨rfl, by decide⟩,
   C6_trade_counting "2026-10-10" { current_day := some "2026-10-10" } c6ops
     rfl (by decide)⟩

/-- A sample instrument (1-ruble lot multiplier, kopeck tick) used by the
C7 counterexample and witnesses. -/
def c7info : Option InstrumentInfo :=
  some { ticker := "DEMO", figi := "BBG000000001", lot := 1,
         min_price_increment := 1 / 100 }

theorem c7_est_100 : est_cost c7info 100 1 = 100 := by
  unfold est_cost normalize_price round_to_step_down lotOf c7info
  dsimp only
  rw [if_neg (by norm_num)]
  norm_num

theorem c7_est_9000 : est_cost c7info 9000 1 = 9000 := by
  unfold est_cost normalize_price round_to_step_down lotOf c7info
  dsimp only
  rw [if_neg (by norm_num)]
  norm_num

/-- C7 as stated is false on the code: with cash 100 and an estimated
cost of exactly 100 the cost does not exceed the free cash, yet the
pre-check refuses the submission — the code compares against
`est_cost * 1.01`, a one-percent buffer, not against the bare cost. -/
theorem C7_counterexample :
    est_cost c7info 100 1 ≤ (100 : ℚ) ∧
    (place_limit_buy {} "BBG000000001" c7info 100 100 1 "uid-c7"
      (some "ord-c7")).2.2 = false ∧
    ((place_limit_buy {} "BBG000000001" c7info 100 100 1 "uid-c7"
      (some "ord-c7")).2.1.map (fun e => e.event)) = ["SKIP"] ∧
    (place_limit_buy {} "BBG000000001" c7info 100 100 1 "uid-c7"
      (some "ord-c7")).1 = {} := by
  have hc : (0 : ℚ) < 100 := by norm_num
  have hlt : (100 : ℚ) < est_cost c7info 100 1 * (101 / 100) := by
    rw [c7_est_100]; norm_num
  refine ⟨by rw [c7_est_100], ?_, ?_, ?_⟩ <;>
    simp [place_limit_buy, hc, hlt]

/-- C7 amended: with strictly positive reported cash, the pre-check
refuses exactly when `cash < est_cost * 1.01`; on refusal the state is
unchanged, the return is false whatever the venue would have answered,
and exactly one SKIP record with status NO_CASH is written; when
`est_cost * 1.01 ≤ cash` the pre-check passes and a successful post
yields a SUBMIT record. -/
theorem C7_cash_precheck :
    (∀ fs f info cash price qty uid post, fs.active_order_id = none →
      fs.position_lots ≤ 0 → 0 < cash →
      cash < est_cost info price qty * (101 / 100) →
      place_limit_buy fs f info cash price qty uid post =
        (fs, [{ event := "SKIP", figi := f, side := "BUY", lots := some qty,
                price := some (normalize_price info price), order_id := none,
                client_uid := none, status := "NO_CASH",
                reason := "insufficient_cash_precheck" }], false)) ∧
    (∀ fs f info cash price qty uid oid, fs.active_order_id = none →
      fs.position_lots ≤ 0 →
      est_cost info price qty * (101 / 100) ≤ cash →
      (place_limit_buy fs f info cash price qty uid (some oid)).2.2 = true ∧
      ((place_limit_buy fs f info cash price qty uid (some oid)).2.1.map
        (fun e => e.event)) = ["SUBMIT"]) := by
  constructor
  · intro fs f info cash price qty uid post hao hnp hc hlt
    have hnp2 : ¬ (0 < fs.position_lots) := not_lt.mpr hnp
    unfold place_limit_buy
    simp [hao, hnp2, hc, hlt]
  · intro fs f info cash price qty uid oid hao hnp hge
    have hnp2 : ¬ (0 < fs.position_lots) := not_lt.mpr hnp
    have hlt2 : ¬ (cash < est_cost info price qty * (101 / 100)) :=
      not_lt.mpr hge
    unfold place_limit_buy
    simp [hao, hnp2, hlt2]

theorem C7_cash_precheck_witness :
    ((0 : ℚ) < 500 ∧ (500 : ℚ) < est_cost c7info 9000 1 * (101 / 100) ∧
      place_limit_buy {} "BBG000000001" c7info 500 9000 1 "uid-b"
        (some "ord-b") =
        (({} : FigiState),
         [{ event := "SKIP", figi := "BBG000000001", side := "BUY",
            lots := some 1, price := some (normalize_price c7info 9000),
            order_id := none, client_uid := none, status := "NO_CASH",
            reason := "insufficient_cash_precheck" }], false)) ∧
    (est_cost c7info 9000 1 * (101 / 100) ≤ (10000 : ℚ) ∧
      (place_limit_buy {} "BBG000000001" c7info 10000 9000 1 "uid-a"
        (some "ord-a")).2.2 = true ∧
      ((place_limit_buy {} "BBG000000001" c7info 10000 9000 1 "uid-a"
        (some "ord-a")).2.1.map (fun e => e.event)) = ["SUBMIT"]) :=
  ⟨⟨by norm_num, by rw [c7_est_9000]; norm_num,
    C7_cash_precheck.1 {} "BBG000000001" c7info 500 9000 1 "uid-b"
      (some "ord-b") rfl (by decide) (by norm_num)
      (by rw [c7_est_9000]; norm_num)⟩,
   ⟨by rw [c7_est_9000]; norm_num,
    (C7_cash_precheck.2 {} "BBG000000001" c7info 10000 9000 1 "uid-a"
      "ord-a" rfl (by decide) (by rw [c7_est_9000]; norm_num)).1,
    (C7_cash_precheck.2 {} "BBG000000001" c7info 10000 9000 1 "uid-a"
      "ord-a" rfl (by decide) (by rw [c7_est_9000]; norm_num)).2⟩⟩

theorem C10_lock_monotone_witness :
    (ledgerRun ({ rmDemo with locked := true }, {})
      [.resetDay "2026-10-13", .updatePnl 1000, .touchDay "2026-10-14",
       .lockDay, .updatePnl 0]).1.locked = true :=
  C10_lock_monotone.1 ({ rmDemo with locked := true }, {})
    [.resetDay "2026-10-13", .updatePnl 1000, .touchDay "2026-10-14",
     .lockDay, .updatePnl 0] rfl

end TradeBot
